/-
  Verification of the TimerMobile offline-first attendance terminal.

  Shallow embedding of the three collaborating modules:
    - services/database.ts      (Event Store, DailyUserStatus table, TerminalConfig, sync log)
    - services/checkinService.ts (Attendance State Tracker)
    - services/syncService.ts   (Sync Engine and Conflict Resolver)

  Embedding conventions:
    - SQLite tables become Lean lists; the checkins table is a list in insertion
      order, the user_status table is an association list keyed by user_id, the
      terminal_config singleton row is an Option, the sync_log rowid is the list
      index.
    - Async methods become pure state-passing functions; the network call inside
      performSync is an explicit GatewayResult argument (transport failure or a
      received SyncResponse).
    - The several Date.now() readings inside one attempt are modelled by a single
      now : Nat parameter; the current local date string is a today : String
      parameter.
    - JavaScript falsy coercions in the source (x || null, x || 0, truthiness
      tests) are modelled explicitly by jsOrNullNat / jsOrNullStr / jsTruthyNat.
    - Math.round((a - b) / 60000) on integer millisecond timestamps is
      roundDivMinutes (floor of (2 * diff + 60000) / 120000, which is the
      round-half-up JavaScript semantics).
-/

import Mathlib

set_option linter.unusedVariables false

-- ===========================================================================
-- Basic enumerations (checkinService.ts types, database.ts column domains)
-- ===========================================================================

/-- sync_status column domain of the checkins table. -/
inductive SyncStatus
  | pending
  | synced
  | failed
  | conflict
deriving DecidableEq, Repr

/-- check_type column domain. -/
inductive CheckType
  | check_in
  | check_out
  | break_start
  | break_end
deriving DecidableEq, Repr

/-- auth_method column domain. -/
inductive AuthMethod
  | nfc
  | pin
  | manual
deriving DecidableEq, Repr

/-- performSync attempt type; heartbeat never reaches performSync. -/
inductive SyncType
  | full
  | incremental
deriving DecidableEq, Repr

/-- Errors the embedded store can signal; duplicateId models the SQLite
UNIQUE-constraint failure of the local_id column on INSERT. -/
inductive DbError
  | duplicateId
deriving DecidableEq, Repr

/-- Equality of Except values is decidable when it is on both sides. -/
instance {ε α : Type} [DecidableEq ε] [DecidableEq α] : DecidableEq (Except ε α) :=
  fun a b =>
    match a, b with
    | .error e, .error f =>
        if h : e = f then isTrue (by rw [h])
        else isFalse (by intro hc; cases hc; exact h rfl)
    | .error _, .ok _ => isFalse (by intro hc; cases hc)
    | .ok _, .error _ => isFalse (by intro hc; cases hc)
    | .ok x, .ok y =>
        if h : x = y then isTrue (by rw [h])
        else isFalse (by intro hc; cases hc; exact h rfl)

-- ===========================================================================
-- JavaScript coercion helpers
-- ===========================================================================

/-- Models the JavaScript expression x || null on an optional number:
0 is falsy, so some 0 collapses to none. -/
def jsOrNullNat (x : Option Nat) : Option Nat :=
  match x with
  | some n => if n = 0 then none else some n
  | none => none

/-- Models the JavaScript expression x || null on an optional string:
the empty string is falsy. -/
def jsOrNullStr (x : Option String) : Option String :=
  match x with
  | some s => if s = "" then none else some s
  | none => none

/-- Models a JavaScript truthiness test on an optional number. -/
def jsTruthyNat (x : Option Nat) : Bool :=
  match x with
  | some n => n != 0
  | none => false

/-- Math.round(diff / 60000) for an integer diff of milliseconds:
JavaScript rounds half toward positive infinity, which is the floor of
(2 * diff + 60000) / 120000. -/
def roundDivMinutes (diff : Int) : Int :=
  Int.fdiv (2 * diff + 60000) 120000

-- ===========================================================================
-- Records (database.ts and checkinService.ts data model)
-- ===========================================================================

/-- One row of the checkins table / one CheckinRecord of checkinService.ts.
The latitude and longitude columns are never read by any claim-relevant code
and are omitted; the autoincrement id and created_at columns are likewise
omitted (insertion order is the list order). -/
structure CheckinRecord where
  localId : String
  userId : Nat
  userName : String
  checkType : CheckType
  timestamp : Nat
  authMethod : AuthMethod
  nfcCardHash : Option String := none
  createdOffline : Bool := false
  syncStatus : SyncStatus := .pending
  syncedAt : Option Nat := none
  syncError : Option String := none
deriving DecidableEq, Repr

/-- One row of the user_status table. total_today_minutes is an Int because the
source stores the result of a JavaScript subtraction and rounding. -/
structure UserStatusRow where
  isCheckedIn : Bool := false
  isOnBreak : Bool := false
  lastCheckIn : Option Nat := none
  lastCheckOut : Option Nat := none
  currentSessionStart : Option Nat := none
  totalTodayMinutes : Int := 0
  todayDate : String := ""
deriving DecidableEq, Repr

/-- The in-memory UserStatus object returned by Database.getUserStatus. -/
structure UserStatus where
  userId : Nat
  userName : String
  isCheckedIn : Bool
  isOnBreak : Bool
  lastCheckIn : Option Nat := none
  lastCheckOut : Option Nat := none
  currentSessionStart : Option Nat := none
  totalTodayMinutes : Int
deriving DecidableEq, Repr

/-- A TypeScript value of type Partial of UserStatus as passed to
Database.updateUserStatus; none models an absent (undefined) field. -/
structure UserStatusUpdates where
  isCheckedIn : Option Bool := none
  isOnBreak : Option Bool := none
  lastCheckIn : Option Nat := none
  lastCheckOut : Option Nat := none
  currentSessionStart : Option Nat := none
  totalTodayMinutes : Option Int := none
deriving DecidableEq, Repr

/-- One row of the users table (local roster cache). -/
structure LocalUser where
  id : Nat
  name : String
  personnelNumber : Option String := none
  department : Option String := none
  nfcCardHash : Option String := none
  pinHash : Option String := none
  profilePhotoUrl : Option String := none
  isActive : Bool := true
  lastSyncedAt : Option Nat := none
deriving DecidableEq, Repr

/-- The terminal_config singleton row / in-memory TerminalConfig. -/
structure TerminalConfig where
  terminalId : String
  tenantId : Nat
  name : String
  location : Option String := none
  apiKey : String
  serverUrl : String
  syncIntervalSeconds : Nat := 60
  offlineBufferHours : Nat := 72
  nfcEnabled : Bool := true
  pinFallbackEnabled : Bool := true
  timezone : String := "Europe/Berlin"
  language : String := "de"
  lastSyncAt : Option Nat := none
deriving DecidableEq, Repr

/-- One row of the sync_log table (a SyncSession record). The rowid is the
index of the entry in the syncLog list. -/
structure SyncLogEntry where
  syncType : SyncType
  startedAt : Nat
  completedAt : Option Nat := none
  recordsSent : Nat := 0
  recordsReceived : Nat := 0
  recordsFailed : Nat := 0
  status : String := "in_progress"
  errorMessage : Option String := none
deriving DecidableEq, Repr

/-- The whole SQLite database of database.ts. -/
structure DbState where
  config : Option TerminalConfig := none
  users : List LocalUser := []
  userStatus : List (Nat × UserStatusRow) := []
  checkins : List CheckinRecord := []
  syncLog : List SyncLogEntry := []
deriving DecidableEq, Repr

-- ===========================================================================
-- Generic list helper: update the element at one index (sync_log UPDATE by id)
-- ===========================================================================

/-- Applies f to the element at index i, leaving everything else unchanged;
models an SQL UPDATE addressed by rowid. -/
def modifyAt {α : Type} : List α → Nat → (α → α) → List α
  | [], _, _ => []
  | e :: es, 0, f => f e :: es
  | e :: es, Nat.succ j, f => e :: modifyAt es j f

-- ===========================================================================
-- Event store operations (database.ts, checkins table)
-- ===========================================================================

/-- The row actually written by Database.saveCheckin: nfc_card_hash goes
through a falsy coercion, and the synced_at / sync_error columns are not in
the INSERT column list, so they are NULL regardless of the record fields. -/
def storedCheckin (r : CheckinRecord) : CheckinRecord :=
  { r with nfcCardHash := jsOrNullStr r.nfcCardHash, syncedAt := none, syncError := none }

/-- Database.saveCheckin: a plain INSERT; the UNIQUE constraint on local_id
makes it fail, leaving the table unchanged, when the localId already exists.
The sync_status column receives the syncStatus field of the record verbatim. -/
def saveCheckin (store : List CheckinRecord) (r : CheckinRecord) :
    Except DbError (List CheckinRecord) :=
  if store.any (fun c => c.localId == r.localId) then .error .duplicateId
  else .ok (store ++ [storedCheckin r])

/-- The per-row effect of Database.updateCheckinSyncStatus: the UPDATE touches
the row whose local_id matches and overwrites exactly the sync_status,
synced_at and sync_error columns (the latter two through || null coercions). -/
def updOne (lid : String) (status : SyncStatus) (syncedAt : Option Nat)
    (syncError : Option String) (c : CheckinRecord) : CheckinRecord :=
  if c.localId = lid then
    { c with syncStatus := status, syncedAt := jsOrNullNat syncedAt,
             syncError := jsOrNullStr syncError }
  else c

/-- Database.updateCheckinSyncStatus: UPDATE checkins SET ... WHERE local_id = ?.
A missing localId simply matches no row; the operation cannot fail. -/
def updateCheckinSyncStatus (store : List CheckinRecord) (lid : String)
    (status : SyncStatus) (syncedAt : Option Nat) (syncError : Option String) :
    List CheckinRecord :=
  store.map (updOne lid status syncedAt syncError)

/-- Insertion step for ordering by timestamp ascending. -/
def insertByTs (c : CheckinRecord) : List CheckinRecord → List CheckinRecord
  | [] => [c]
  | d :: ds => if c.timestamp ≤ d.timestamp then c :: d :: ds else d :: insertByTs c ds

/-- ORDER BY timestamp ASC. -/
def sortByTs : List CheckinRecord → List CheckinRecord
  | [] => []
  | c :: cs => insertByTs c (sortByTs cs)

/-- Membership of sync_status in the pair pending, failed (the SQL IN test). -/
def isQueued (s : SyncStatus) : Bool :=
  match s with
  | .pending => true
  | .failed => true
  | _ => false

/-- Database.getPendingCheckins: the retry queue, pending and failed rows
ordered by original timestamp ascending. -/
def getPendingCheckins (db : DbState) : List CheckinRecord :=
  sortByTs (db.checkins.filter (fun c => isQueued c.syncStatus))

/-- Database.deleteOldSyncedCheckins: the retention purge. It deletes only
rows whose sync_status is synced and whose timestamp lies before the cutoff
(now minus olderThanDays worth of milliseconds, an integer because the
JavaScript subtraction can go negative); it returns the kept rows together
with the number of deleted rows (result.changes). Surviving rows are never
modified. -/
def deleteOldSyncedCheckins (store : List CheckinRecord) (olderThanDays : Nat)
    (now : Nat) : List CheckinRecord × Nat :=
  let cutoff : Int := (now : Int) - (olderThanDays : Int) * 24 * 60 * 60 * 1000
  let kept := store.filter (fun c =>
    !((c.syncStatus == SyncStatus.synced) && decide ((c.timestamp : Int) < cutoff)))
  (kept, store.length - kept.length)

-- ===========================================================================
-- User status operations (database.ts, user_status table)
-- ===========================================================================

/-- SELECT * FROM user_status WHERE user_id = ?. -/
def lookupStatus : List (Nat × UserStatusRow) → Nat → Option UserStatusRow
  | [], _ => none
  | (k, v) :: rest, uid => if k = uid then some v else lookupStatus rest uid

/-- UPDATE user_status SET ... WHERE user_id = ?. -/
def setStatusRow : List (Nat × UserStatusRow) → Nat → (UserStatusRow → UserStatusRow) →
    List (Nat × UserStatusRow)
  | [], _, _ => []
  | (k, v) :: rest, uid, f =>
      if k = uid then (k, f v) :: setStatusRow rest uid f
      else (k, v) :: setStatusRow rest uid f

/-- Database.resetDailyStatus: clears the daily fields in place and stamps the
row with the new date; last_check_in and last_check_out are preserved. -/
def resetDailyStatus (db : DbState) (uid : Nat) (today : String) : DbState :=
  { db with userStatus := setStatusRow db.userStatus uid (fun r =>
      { r with isCheckedIn := false, isOnBreak := false,
               currentSessionStart := none, totalTodayMinutes := 0,
               todayDate := today }) }

/-- Database.getUserById: SELECT * FROM users WHERE id = ?. -/
def getUserById (db : DbState) (uid : Nat) : Option LocalUser :=
  db.users.find? (fun v => v.id == uid)

/-- Database.getUserStatus: reads the row, applying the lazy read-time daily
rollover. When today_date differs from today the row is reset in place and a
cleared status object is returned without re-reading the row; otherwise the
row is mapped to a UserStatus (the user name comes from the roster cache). -/
def getUserStatus (db : DbState) (uid : Nat) (today : String) :
    DbState × Option UserStatus :=
  match lookupStatus db.userStatus uid with
  | none => (db, none)
  | some row =>
    if row.todayDate ≠ today then
      (resetDailyStatus db uid today,
       some { userId := uid, userName := "", isCheckedIn := false,
              isOnBreak := false, lastCheckIn := none, lastCheckOut := none,
              currentSessionStart := none, totalTodayMinutes := 0 })
    else
      (db,
       some { userId := uid,
              userName := (match getUserById db uid with
                           | some v => v.name
                           | none => ""),
              isCheckedIn := row.isCheckedIn,
              isOnBreak := row.isOnBreak,
              lastCheckIn := row.lastCheckIn,
              lastCheckOut := row.lastCheckOut,
              currentSessionStart := row.currentSessionStart,
              totalTodayMinutes := row.totalTodayMinutes })

/-- The UPDATE branch of Database.updateUserStatus: only the fields present in
the updates object get a SET clause; today_date is always re-stamped. The
currentSessionStart value additionally goes through a || null coercion, and a
field explicitly set to undefined counts as absent, so its clause is skipped. -/
def applyStatusUpdates (u : UserStatusUpdates) (today : String) (r : UserStatusRow) :
    UserStatusRow :=
  let r1 := match u.isCheckedIn with
            | some b => { r with isCheckedIn := b }
            | none => r
  let r2 := match u.isOnBreak with
            | some b => { r1 with isOnBreak := b }
            | none => r1
  let r3 := match u.lastCheckIn with
            | some v => { r2 with lastCheckIn := some v }
            | none => r2
  let r4 := match u.lastCheckOut with
            | some v => { r3 with lastCheckOut := some v }
            | none => r3
  let r5 := match u.currentSessionStart with
            | some v => { r4 with currentSessionStart := jsOrNullNat (some v) }
            | none => r4
  let r6 := match u.totalTodayMinutes with
            | some v => { r5 with totalTodayMinutes := v }
            | none => r5
  { r6 with todayDate := today }

/-- The INSERT branch of Database.updateUserStatus: absent fields fall back to
falsy defaults and the optional timestamps go through || null coercions. -/
def newStatusRow (u : UserStatusUpdates) (today : String) : UserStatusRow :=
  { isCheckedIn := u.isCheckedIn.getD false,
    isOnBreak := u.isOnBreak.getD false,
    lastCheckIn := jsOrNullNat u.lastCheckIn,
    lastCheckOut := jsOrNullNat u.lastCheckOut,
    currentSessionStart := jsOrNullNat u.currentSessionStart,
    totalTodayMinutes := u.totalTodayMinutes.getD 0,
    todayDate := today }

/-- Database.updateUserStatus: write-path status update. Note that it never
reads today_date, so it performs no rollover: it only re-stamps the date. -/
def updateUserStatus (db : DbState) (uid : Nat) (u : UserStatusUpdates)
    (today : String) : DbState :=
  if (lookupStatus db.userStatus uid).isSome then
    { db with userStatus := setStatusRow db.userStatus uid (applyStatusUpdates u today) }
  else
    { db with userStatus := db.userStatus ++ [(uid, newStatusRow u today)] }

-- ===========================================================================
-- Terminal config and sync log operations (database.ts)
-- ===========================================================================

/-- The row actually written by Database.saveTerminalConfig: location and
last_sync_at go through || null coercions. -/
def storedConfig (c : TerminalConfig) : TerminalConfig :=
  { c with location := jsOrNullStr c.location, lastSyncAt := jsOrNullNat c.lastSyncAt }

/-- Database.saveTerminalConfig: INSERT OR REPLACE of the singleton row. -/
def saveTerminalConfig (db : DbState) (c : TerminalConfig) : DbState :=
  { db with config := some (storedConfig c) }

/-- Database.logSyncStart: opens a SyncSession row with status in_progress and
returns its rowid, here the index of the appended entry. -/
def logSyncStart (db : DbState) (ty : SyncType) (now : Nat) : DbState :=
  { db with syncLog := db.syncLog ++
      [{ syncType := ty, startedAt := now, completedAt := none,
         recordsSent := 0, recordsReceived := 0, recordsFailed := 0,
         status := "in_progress", errorMessage := none }] }

/-- Database.logSyncComplete: finalizes the SyncSession row with counts. -/
def logSyncComplete (db : DbState) (logId : Nat) (now : Nat)
    (sent received failed : Nat) : DbState :=
  { db with syncLog := modifyAt db.syncLog logId (fun e =>
      { e with completedAt := some now, recordsSent := sent,
               recordsReceived := received, recordsFailed := failed,
               status := "completed" }) }

/-- Database.logSyncFailed: finalizes the SyncSession row as failed. -/
def logSyncFailed (db : DbState) (logId : Nat) (now : Nat) (msg : String) : DbState :=
  { db with syncLog := modifyAt db.syncLog logId (fun e =>
      { e with completedAt := some now, status := "failed",
               errorMessage := some msg }) }

-- ===========================================================================
-- Attendance state tracker (checkinService.ts)
-- ===========================================================================

/-- CheckinService.checkIn: builds a pending check_in event, appends it, then
updates the user status row (isCheckedIn, lastCheckIn, currentSessionStart);
lid is the freshly generated localId, online is navigator.onLine. -/
def checkIn (db : DbState) (uid : Nat) (uname : String) (am : AuthMethod)
    (hash : Option String) (lid : String) (now : Nat) (today : String)
    (online : Bool) : Except DbError (DbState × CheckinRecord) :=
  let record : CheckinRecord :=
    { localId := lid, userId := uid, userName := uname, checkType := .check_in,
      timestamp := now, authMethod := am, nfcCardHash := hash,
      createdOffline := !online, syncStatus := .pending,
      syncedAt := none, syncError := none }
  match saveCheckin db.checkins record with
  | .error e => .error e
  | .ok cs =>
    let db1 := { db with checkins := cs }
    let db2 := updateUserStatus db1 uid
      { isCheckedIn := some true, lastCheckIn := some now,
        currentSessionStart := some now } today
    .ok (db2, record)

/-- CheckinService.checkOut: appends a pending check_out event, re-reads the
status (the read applies the rollover), computes the session minutes with a
truthiness test on currentSessionStart, and updates the status row. The
currentSessionStart field of the updates object is explicitly undefined, so
the stored current_session_start column is left untouched by the UPDATE. -/
def checkOut (db : DbState) (uid : Nat) (uname : String) (am : AuthMethod)
    (hash : Option String) (lid : String) (now : Nat) (today : String)
    (online : Bool) : Except DbError (DbState × CheckinRecord) :=
  let record : CheckinRecord :=
    { localId := lid, userId := uid, userName := uname, checkType := .check_out,
      timestamp := now, authMethod := am, nfcCardHash := hash,
      createdOffline := !online, syncStatus := .pending,
      syncedAt := none, syncError := none }
  match saveCheckin db.checkins record with
  | .error e => .error e
  | .ok cs =>
    let db1 := { db with checkins := cs }
    let p := getUserStatus db1 uid today
    let sessionMinutes : Int :=
      match p.2 with
      | some st =>
          if jsTruthyNat st.currentSessionStart then
            roundDivMinutes ((now : Int) - (st.currentSessionStart.getD 0 : Nat))
          else 0
      | none => 0
    let prevTotal : Int :=
      match p.2 with
      | some st => st.totalTodayMinutes
      | none => 0
    let db3 := updateUserStatus p.1 uid
      { isCheckedIn := some false, isOnBreak := some false,
        lastCheckOut := some now, currentSessionStart := none,
        totalTodayMinutes := some (prevTotal + sessionMinutes) } today
    .ok (db3, record)

/-- CheckinService.startBreak: appends a pending break_start event (the source
method takes no card hash) and sets only the isOnBreak flag of the status. -/
def startBreak (db : DbState) (uid : Nat) (uname : String) (am : AuthMethod)
    (lid : String) (now : Nat) (today : String) (online : Bool) :
    Except DbError (DbState × CheckinRecord) :=
  let record : CheckinRecord :=
    { localId := lid, userId := uid, userName := uname, checkType := .break_start,
      timestamp := now, authMethod := am, nfcCardHash := none,
      createdOffline := !online, syncStatus := .pending,
      syncedAt := none, syncError := none }
  match saveCheckin db.checkins record with
  | .error e => .error e
  | .ok cs =>
    let db1 := { db with checkins := cs }
    .ok (updateUserStatus db1 uid { isOnBreak := some true } today, record)

/-- CheckinService.endBreak: appends a pending break_end event and clears only
the isOnBreak flag of the status. -/
def endBreak (db : DbState) (uid : Nat) (uname : String) (am : AuthMethod)
    (lid : String) (now : Nat) (today : String) (online : Bool) :
    Except DbError (DbState × CheckinRecord) :=
  let record : CheckinRecord :=
    { localId := lid, userId := uid, userName := uname, checkType := .break_end,
      timestamp := now, authMethod := am, nfcCardHash := none,
      createdOffline := !online, syncStatus := .pending,
      syncedAt := none, syncError := none }
  match saveCheckin db.checkins record with
  | .error e => .error e
  | .ok cs =>
    let db1 := { db with checkins := cs }
    .ok (updateUserStatus db1 uid { isOnBreak := some false } today, record)

/-- CheckinService.toggleCheckin: reads the status (with rollover); a user who
is absent or not checked in gets a check-in, anyone else gets a check-out.
The branch condition is the negation of isCheckedIn alone. -/
def toggleCheckin (db : DbState) (uid : Nat) (uname : String) (am : AuthMethod)
    (hash : Option String) (lid : String) (now : Nat) (today : String)
    (online : Bool) : Except DbError (DbState × CheckType × CheckinRecord) :=
  let p := getUserStatus db uid today
  if p.2.elim true (fun st => !st.isCheckedIn) then
    (checkIn p.1 uid uname am hash lid now today online).map
      (fun q => (q.1, CheckType.check_in, q.2))
  else
    (checkOut p.1 uid uname am hash lid now today online).map
      (fun q => (q.1, CheckType.check_out, q.2))

-- ===========================================================================
-- Sync engine data (syncService.ts types)
-- ===========================================================================

/-- One element of the failedRecords field of a SyncResponse. -/
structure FailedRecord where
  localId : String
  error : String
deriving DecidableEq, Repr

/-- A roster entry pushed by the server. -/
structure ServerUser where
  userId : Nat
  name : String
  personnelNumber : Option String := none
  department : Option String := none
  nfcCardHash : Option String := none
  pinHash : Option String := none
  profilePhotoUrl : Option String := none
  isActive : Bool := true
deriving DecidableEq, Repr

/-- Settings pushed by the server; breakReminderMinutes and autoCheckoutHours
are received but never written into the terminal config by updateSettings. -/
structure ServerSettings where
  syncIntervalSeconds : Nat
  offlineBufferHours : Nat
  nfcEnabled : Bool
  pinFallbackEnabled : Bool
  timezone : String
  language : String
  breakReminderMinutes : Nat := 0
  autoCheckoutHours : Nat := 0
deriving DecidableEq, Repr

/-- conflictType domain of a ConflictRecord. -/
inductive ConflictType
  | duplicate
  | time_mismatch
  | user_mismatch
deriving DecidableEq, Repr

/-- resolution domain of a ConflictRecord. -/
inductive Resolution
  | use_server
  | use_local
  | manual
deriving DecidableEq, Repr

/-- A server conflict directive; the serverRecord payload is never read by the
resolver and is omitted. -/
structure ConflictRecord where
  localId : String
  conflictType : ConflictType
  resolution : Resolution
deriving DecidableEq, Repr

/-- The string interpolation of a conflictType value. -/
def conflictTypeStr (t : ConflictType) : String :=
  match t with
  | .duplicate => "duplicate"
  | .time_mismatch => "time_mismatch"
  | .user_mismatch => "user_mismatch"

/-- The application-level response of the sync endpoint. An absent users or
conflicts array behaves exactly like an empty one in the source (the guards
test length > 0), so both are plain lists here; settings keeps its Option. -/
structure SyncResponse where
  success : Bool
  serverTimestamp : Nat
  syncedRecords : Nat := 0
  failedRecords : List FailedRecord := []
  users : List ServerUser := []
  settings : Option ServerSettings := none
  conflicts : List ConflictRecord := []
deriving DecidableEq, Repr

/-- Outcome of the network round-trip of one attempt: either no response
reached the client (transport failure or timeout, with the error message the
transport produced), or an application response was received. -/
inductive GatewayResult
  | transportFailure (msg : String)
  | response (r : SyncResponse)
deriving DecidableEq, Repr

-- ===========================================================================
-- Sync engine operations (syncService.ts)
-- ===========================================================================

/-- The field-wise image of a ServerUser in the local roster cache, as built
by updateLocalUsers: the nullable hashes go through falsy coercions and
lastSyncedAt is stamped with the current time. -/
def serverToLocal (now : Nat) (u : ServerUser) : LocalUser :=
  { id := u.userId, name := u.name, personnelNumber := u.personnelNumber,
    department := u.department, nfcCardHash := jsOrNullStr u.nfcCardHash,
    pinHash := jsOrNullStr u.pinHash, profilePhotoUrl := u.profilePhotoUrl,
    isActive := u.isActive,
    lastSyncedAt := some now }

/-- Database.saveUser: INSERT OR REPLACE keyed by id; an absent or zero
lastSyncedAt falls back to the current time (|| Date.now()). -/
def saveUser (now : Nat) (users : List LocalUser) (u : LocalUser) : List LocalUser :=
  let ts : Nat :=
    match u.lastSyncedAt with
    | some t => if t = 0 then now else t
    | none => now
  let stored := { u with lastSyncedAt := some ts }
  if users.any (fun v => v.id == u.id) then
    users.map (fun v => if v.id = u.id then stored else v)
  else users ++ [stored]

/-- Database.saveUsers: sequential upsert of the whole roster. -/
def saveUsers (now : Nat) (users : List LocalUser) (us : List LocalUser) :
    List LocalUser :=
  us.foldl (saveUser now) users

/-- SyncService.updateSettings: overwrites six config fields from the server
settings and persists the config; returns the new in-memory config. -/
def updateSettings (db : DbState) (cfg : TerminalConfig) (st : ServerSettings) :
    DbState × TerminalConfig :=
  let cfg' := { cfg with syncIntervalSeconds := st.syncIntervalSeconds,
                         offlineBufferHours := st.offlineBufferHours,
                         nfcEnabled := st.nfcEnabled,
                         pinFallbackEnabled := st.pinFallbackEnabled,
                         timezone := st.timezone,
                         language := st.language }
  (saveTerminalConfig db cfg', cfg')

/-- The marking applied to an accepted event. -/
def syncMark (now : Nat) (c : CheckinRecord) : CheckinRecord :=
  { c with syncStatus := .synced, syncedAt := jsOrNullNat (some now), syncError := none }

/-- The marking applied to an event reported in failedRecords. -/
def failMark (f : FailedRecord) (c : CheckinRecord) : CheckinRecord :=
  { c with syncStatus := .failed, syncedAt := none, syncError := jsOrNullStr (some f.error) }

/-- The loop marking accepted events synced, one UPDATE per localId. -/
def markSyncedFold (store : List CheckinRecord) (ids : List String) (now : Nat) :
    List CheckinRecord :=
  ids.foldl (fun st lid => updateCheckinSyncStatus st lid .synced (some now) none) store

/-- The loop marking reported failures, one UPDATE per failedRecords entry. -/
def markFailedFold (store : List CheckinRecord) (frs : List FailedRecord) :
    List CheckinRecord :=
  frs.foldl (fun st f => updateCheckinSyncStatus st f.localId .failed none (some f.error)) store

/-- The per-directive body of SyncService.handleConflicts. -/
def handleConflict (store : List CheckinRecord) (cf : ConflictRecord) :
    List CheckinRecord :=
  match cf.resolution with
  | .use_server =>
      updateCheckinSyncStatus store cf.localId .conflict none
        (some ("Resolved: " ++ conflictTypeStr cf.conflictType))
  | .use_local =>
      updateCheckinSyncStatus store cf.localId .pending none none
  | .manual =>
      updateCheckinSyncStatus store cf.localId .conflict none
        (some ("Manual resolution required: " ++ conflictTypeStr cf.conflictType))

/-- SyncService.handleConflicts: sequential handling of every directive. -/
def handleConflicts (store : List CheckinRecord) (cfs : List ConflictRecord) :
    List CheckinRecord :=
  cfs.foldl handleConflict store

/-- The net per-row effect of one conflict directive on a matching row. -/
def conflictMark (cf : ConflictRecord) (c : CheckinRecord) : CheckinRecord :=
  match cf.resolution with
  | .use_server =>
      { c with syncStatus := .conflict, syncedAt := none,
               syncError := jsOrNullStr (some ("Resolved: " ++ conflictTypeStr cf.conflictType)) }
  | .use_local =>
      { c with syncStatus := .pending, syncedAt := none, syncError := none }
  | .manual =>
      { c with syncStatus := .conflict, syncedAt := none,
               syncError := jsOrNullStr (some ("Manual resolution required: " ++ conflictTypeStr cf.conflictType)) }

/-- The last element of a list whose key matches lid, if any; the per-localId
update loops run left to right, so the last matching entry decides the final
row of a given localId. -/
def findLastBy {b : Type} (key : b → String) : List b → String → Option b
  | [], _ => none
  | x :: xs, lid =>
    match findLastBy key xs lid with
    | some g => some g
    | none => if key x = lid then some x else none

/-- In-memory state of the SyncService singleton together with the database. -/
structure SyncServiceState where
  db : DbState
  config : Option TerminalConfig := none
  isSyncing : Bool := false
  isOnline : Bool := true
  retryCount : Nat := 0
  maxRetries : Nat := 3
deriving DecidableEq, Repr

/-- The opening part of performSync executed synchronously before any suspension:
the not-initialized guard, the single-flight guard, setting isSyncing, and
opening the SyncSession row. Returns the rowid when an attempt was admitted. -/
def syncBegin (s : SyncServiceState) (ty : SyncType) (now : Nat) :
    SyncServiceState × Option Nat :=
  match s.config with
  | none => (s, none)
  | some _ =>
    if s.isSyncing then (s, none)
    else
      ({ s with db := logSyncStart s.db ty now, isSyncing := true },
       some s.db.syncLog.length)

/-- The success branch of performSync after a response with success = true:
partition the sent batch against failedRecords, mark accepted events synced
and reported events failed, apply roster and settings pushes, hand conflicts
to the resolver, set the checkpoint to the server timestamp, persist the
config, and finalize the SyncSession with counts. Returns the final database
and the final in-memory config. -/
def applySuccessResponse (db : DbState) (cfg : TerminalConfig) (r : SyncResponse)
    (now : Nat) (logId : Nat) : DbState × TerminalConfig :=
  let pending := getPendingCheckins db
  let syncedIds :=
    (pending.filter (fun c => !(r.failedRecords.any (fun f => f.localId == c.localId)))).map
      (fun c => c.localId)
  let cs2 := markFailedFold (markSyncedFold db.checkins syncedIds now) r.failedRecords
  let db2 := { db with checkins := cs2 }
  let db3 := if r.users.length > 0 then
               { db2 with users := saveUsers now db2.users (r.users.map (serverToLocal now)) }
             else db2
  let p := match r.settings with
           | some st => updateSettings db3 cfg st
           | none => (db3, cfg)
  let db5 := if r.conflicts.length > 0 then
               { p.1 with checkins := handleConflicts p.1.checkins r.conflicts }
             else p.1
  let cfg2 := { p.2 with lastSyncAt := some r.serverTimestamp }
  let db6 := saveTerminalConfig db5 cfg2
  let db7 := logSyncComplete db6 logId now syncedIds.length r.users.length
               r.failedRecords.length
  (db7, cfg2)

/-- The remainder of performSync after the attempt was admitted: the network
round-trip and the try/catch logic. On a transport failure the response
interceptor marks the engine offline and the catch block finalizes the
SyncSession as failed and schedules up to maxRetries bounded retries; on an
application response the interceptor marks the engine online and resets the
retry counter, then success = false is rethrown into the catch block, while
success = true runs applySuccessResponse. -/
def syncFinish (s : SyncServiceState) (logId : Nat) (gw : GatewayResult)
    (now : Nat) : SyncServiceState × Option SyncResponse :=
  match s.config with
  | none => (s, none)
  | some cfg =>
    match gw with
    | .transportFailure msg =>
        ({ s with db := logSyncFailed s.db logId now msg,
                  isSyncing := false, isOnline := false,
                  retryCount := if s.retryCount < s.maxRetries
                                then s.retryCount + 1 else s.retryCount },
         none)
    | .response data =>
        if data.success then
          let q := applySuccessResponse s.db cfg data now logId
          ({ s with db := q.1, config := some q.2, isSyncing := false,
                    isOnline := true, retryCount := 0 },
           some data)
        else
          ({ s with db := logSyncFailed s.db logId now
                      "Sync failed: server returned success=false",
                    isSyncing := false, isOnline := true, retryCount := 1 },
           none)

/-- SyncService.performSync: one sync attempt of the given type, driven by the
oracle gw for the single network round-trip. -/
def performSync (s : SyncServiceState) (ty : SyncType) (gw : GatewayResult)
    (now : Nat) : SyncServiceState × Option SyncResponse :=
  match syncBegin s ty now with
  | (s1, some logId) => syncFinish s1 logId gw now
  | (s1, none) => (s1, none)

-- ===========================================================================
-- Concrete instances used by witnesses and counterexamples
-- ===========================================================================

/-- A registered terminal configuration whose checkpoint is 100. -/
def cfgW : TerminalConfig :=
  { terminalId := "T1", tenantId := 1, name := "Front door", apiKey := "k",
    serverUrl := "https://server.example", lastSyncAt := some 100 }

/-- A small attendance event used in scenarios. -/
def mkEv (lid : String) (ts : Nat) : CheckinRecord :=
  { localId := lid, userId := 1, userName := "U", checkType := .check_in,
    timestamp := ts, authMethod := .nfc }

/-- Engine state: registered, idle, checkpoint 100, no events. -/
def s1c : SyncServiceState :=
  { db := { config := some cfgW }, config := some cfgW }

/-- A successful response whose serverTimestamp 50 is earlier than the
checkpoint 100 held before the attempt. -/
def r1c : SyncResponse := { success := true, serverTimestamp := 50 }

/-- Engine state with three pending events e1, e2, e3. -/
def s4w : SyncServiceState :=
  { db := { config := some cfgW,
            checkins := [mkEv "e1" 10, mkEv "e2" 20, mkEv "e3" 30] },
    config := some cfgW }

/-- A successful response reporting e2 as the only failure. -/
def r4w : SyncResponse :=
  { success := true, serverTimestamp := 200,
    failedRecords := [{ localId := "e2", error := "bad record" }] }

/-- Engine state with a single pending event e1. -/
def s4c : SyncServiceState :=
  { db := { config := some cfgW, checkins := [mkEv "e1" 10] },
    config := some cfgW }

/-- A successful response with an empty failedRecords list but a use_server
conflict directive naming the sent event e1. -/
def r4c : SyncResponse :=
  { success := true, serverTimestamp := 10,
    conflicts := [{ localId := "e1", conflictType := .duplicate,
                    resolution := .use_server }] }

/-- A record whose syncStatus is already synced at creation. -/
def w2a : CheckinRecord :=
  { localId := "x1", userId := 2, userName := "V", checkType := .check_out,
    timestamp := 40, authMethod := .pin, syncStatus := .synced }

/-- A second record reusing the localId x1. -/
def w2b : CheckinRecord :=
  { localId := "x1", userId := 3, userName := "W", checkType := .check_in,
    timestamp := 50, authMethod := .manual }

/-- A stored status row stamped with the previous day. -/
def rowY : UserStatusRow :=
  { isCheckedIn := true, isOnBreak := true, lastCheckIn := some 5,
    currentSessionStart := some 5, totalTodayMinutes := 120,
    todayDate := "2026-10-11" }

/-- A database holding only the stale status row of user 7. -/
def db5x : DbState := { userStatus := [(7, rowY)] }

/-- The empty database used by the toggle scenario. -/
def dbT : DbState := {}

/-- The database after the first toggle of the scenario (a check-in of user 7
at minute one of the day 2026-10-12). -/
def dbAfter1 : DbState :=
  match toggleCheckin dbT 7 "Alice" AuthMethod.nfc none "a1" 60000 "2026-10-12" true with
  | .ok q => q.1
  | .error _ => dbT

/-- A database whose user 7 is checked in and on break today. -/
def dbBreak : DbState :=
  { userStatus := [(7, { isCheckedIn := true, isOnBreak := true,
                         lastCheckIn := some 60000, currentSessionStart := some 60000,
                         totalTodayMinutes := 0, todayDate := "2026-10-12" })] }

/-- A failed event sitting in the store for the conflict scenarios. -/
def evF : CheckinRecord := { mkEv "e1" 10 with syncStatus := .failed }

/-- A store holding only the failed event e1. -/
def storeL : List CheckinRecord := [evF]

/-- A use_local directive naming e1. -/
def cfL : ConflictRecord :=
  { localId := "e1", conflictType := .time_mismatch, resolution := .use_local }

/-- A use_server directive naming e1. -/
def cfS : ConflictRecord :=
  { localId := "e1", conflictType := .duplicate, resolution := .use_server }

-- ===========================================================================
-- General helper lemmas
-- ===========================================================================

theorem modifyAt_append_self {a : Type} (l : List a) (x : a) (f : a → a) :
    modifyAt (l ++ [x]) l.length f = l ++ [f x] := by
  induction l with
  | nil => rfl
  | cons e es ih => simp [modifyAt, ih]

theorem mem_insertByTs {a c : CheckinRecord} {l : List CheckinRecord} :
    a ∈ insertByTs c l ↔ a = c ∨ a ∈ l := by
  induction l with
  | nil => simp [insertByTs]
  | cons d ds ih =>
    rw [insertByTs]
    split
    · simp
    · simp [ih]
      tauto

theorem mem_sortByTs {a : CheckinRecord} {l : List CheckinRecord} :
    a ∈ sortByTs l ↔ a ∈ l := by
  induction l with
  | nil => simp [sortByTs]
  | cons c cs ih => simp [sortByTs, mem_insertByTs, ih]

theorem mem_getPendingCheckins {c : CheckinRecord} {db : DbState} :
    c ∈ getPendingCheckins db ↔ c ∈ db.checkins ∧ isQueued c.syncStatus = true := by
  simp [getPendingCheckins, mem_sortByTs, List.mem_filter]

theorem lookupStatus_setStatusRow (l : List (Nat × UserStatusRow)) (uid : Nat)
    (f : UserStatusRow → UserStatusRow) :
    lookupStatus (setStatusRow l uid f) uid = (lookupStatus l uid).map f := by
  induction l with
  | nil => rfl
  | cons p rest ih =>
    obtain ⟨k, v⟩ := p
    by_cases hk : k = uid
    · subst hk
      simp [lookupStatus, setStatusRow, ih]
    · simp [lookupStatus, setStatusRow, hk, ih]

theorem lookupStatus_setStatusRow_other (l : List (Nat × UserStatusRow)) (uid v : Nat)
    (f : UserStatusRow → UserStatusRow) (hne : v ≠ uid) :
    lookupStatus (setStatusRow l uid f) v = lookupStatus l v := by
  induction l with
  | nil => rfl
  | cons p rest ih =>
    obtain ⟨k, w⟩ := p
    by_cases hk : k = uid
    · subst hk
      have hkv : k ≠ v := fun h => hne h.symm
      simp [lookupStatus, setStatusRow, ih, hkv]
    · simp only [setStatusRow, if_neg hk]
      by_cases hkv : k = v <;> simp [lookupStatus, hkv, ih]

-- ===========================================================================
-- Characterizations of the per-localId update loops
-- ===========================================================================

theorem updOne_synced_eq (lid : String) (now : Nat) :
    updOne lid .synced (some now) none =
      (fun c => if c.localId = lid then syncMark now c else c) := rfl

theorem updOne_failed_eq (f : FailedRecord) :
    updOne f.localId .failed none (some f.error) =
      (fun c => if c.localId = f.localId then failMark f c else c) := rfl

theorem conflictMark_localId (cf : ConflictRecord) (c : CheckinRecord) :
    (conflictMark cf c).localId = c.localId := by
  obtain ⟨lid, ct, res⟩ := cf
  cases res <;> rfl

theorem conflictMark_overwrite (cf cf' : ConflictRecord) (c : CheckinRecord) :
    conflictMark cf' (conflictMark cf c) = conflictMark cf' c := by
  obtain ⟨lid, ct, res⟩ := cf
  obtain ⟨lid', ct', res'⟩ := cf'
  cases res <;> cases res' <;> rfl

theorem handleConflict_eq (store : List CheckinRecord) (cf : ConflictRecord) :
    handleConflict store cf =
      store.map (fun c => if c.localId = cf.localId then conflictMark cf c else c) := by
  obtain ⟨lid, ct, res⟩ := cf
  cases res <;> rfl

/-- Generic shape of the three per-localId update loops: a left fold of
whole-table UPDATEs addressed by localId equals one map whose effect on each
row is decided by the last matching update. Requires that the update preserves
localId and that a later update fully overwrites an earlier one. -/
theorem foldl_update_eq {b : Type} (key : b → String)
    (mark : b → CheckinRecord → CheckinRecord)
    (hloc : ∀ x c, (mark x c).localId = c.localId)
    (hover : ∀ x y c, mark y (mark x c) = mark y c)
    (items : List b) (store : List CheckinRecord) :
    items.foldl
      (fun st x => st.map (fun c => if c.localId = key x then mark x c else c)) store
      = store.map (fun c =>
          ((findLastBy key items c.localId).map (fun x => mark x c)).getD c) := by
  induction items generalizing store with
  | nil => simp [findLastBy]
  | cons x xs ih =>
    rw [List.foldl_cons, ih, List.map_map]
    refine congrArg (fun g => store.map g) (funext fun c => ?_)
    simp only [Function.comp_apply]
    by_cases hc : c.localId = key x
    · rw [if_pos hc]
      have hl : (mark x c).localId = c.localId := hloc x c
      rw [hl]
      have hk : key x = c.localId := hc.symm
      cases hg : findLastBy key xs c.localId with
      | some g => simp [findLastBy, hg, hover]
      | none => simp [findLastBy, hg, hk]
    · rw [if_neg hc]
      cases hg : findLastBy key xs c.localId with
      | some g => simp [findLastBy, hg]
      | none =>
        have hne : ¬ key x = c.localId := fun h => hc h.symm
        simp [findLastBy, hg, hne]

theorem markSyncedFold_eq (store : List CheckinRecord) (ids : List String) (now : Nat) :
    markSyncedFold store ids now =
      store.map (fun c =>
        ((findLastBy (fun lid => lid) ids c.localId).map
          (fun _ => syncMark now c)).getD c) := by
  have h := foldl_update_eq (fun lid => lid) (fun _ c => syncMark now c)
    (fun _ _ => rfl) (fun _ _ _ => rfl) ids store
  calc markSyncedFold store ids now
      = ids.foldl
          (fun st lid => st.map (fun c => if c.localId = lid then syncMark now c else c))
          store := rfl
    _ = _ := h

theorem markFailedFold_eq (store : List CheckinRecord) (frs : List FailedRecord) :
    markFailedFold store frs =
      store.map (fun c =>
        ((findLastBy (fun f => f.localId) frs c.localId).map
          (fun f => failMark f c)).getD c) := by
  have h := foldl_update_eq (fun (f : FailedRecord) => f.localId) failMark
    (fun _ _ => rfl) (fun _ _ _ => rfl) frs store
  calc markFailedFold store frs
      = frs.foldl
          (fun st f => st.map (fun c => if c.localId = f.localId then failMark f c else c))
          store := rfl
    _ = _ := h

theorem handleConflicts_eq (store : List CheckinRecord) (cfs : List ConflictRecord) :
    handleConflicts store cfs =
      store.map (fun c =>
        ((findLastBy (fun cf => cf.localId) cfs c.localId).map
          (fun cf => conflictMark cf c)).getD c) := by
  have h : handleConflicts store cfs =
      cfs.foldl
        (fun st cf => st.map (fun c => if c.localId = cf.localId then conflictMark cf c else c))
        store :=
    congrArg (fun f => cfs.foldl f store)
      (funext fun st => funext fun cf => handleConflict_eq st cf)
  rw [h]
  exact foldl_update_eq (fun (cf : ConflictRecord) => cf.localId) conflictMark
    conflictMark_localId conflictMark_overwrite cfs store

theorem findLastBy_eq_none {b : Type} (key : b → String) (items : List b) (lid : String)
    (h : items.any (fun x => key x == lid) = false) :
    findLastBy key items lid = none := by
  induction items with
  | nil => rfl
  | cons x xs ih =>
    simp only [List.any_cons, Bool.or_eq_false_iff] at h
    rw [findLastBy, ih h.2]
    have hx : ¬ key x = lid := by simpa using h.1
    simp [hx]

theorem findLastBy_some {b : Type} (key : b → String) (items : List b) (lid : String)
    (g : b) (h : findLastBy key items lid = some g) :
    g ∈ items ∧ key g = lid := by
  induction items with
  | nil => cases h
  | cons x xs ih =>
    rw [findLastBy] at h
    cases hg : findLastBy key xs lid with
    | some g' =>
      rw [hg] at h
      cases h
      have := ih hg
      exact ⟨List.mem_cons_of_mem _ this.1, this.2⟩
    | none =>
      rw [hg] at h
      by_cases hk : key x = lid
      · rw [if_pos hk] at h
        cases h
        exact ⟨List.mem_cons_self _ _, hk⟩
      · rw [if_neg hk] at h
        cases h

theorem findLastBy_isSome {b : Type} (key : b → String) (items : List b) (lid : String)
    (h : items.any (fun x => key x == lid) = true) :
    (findLastBy key items lid).isSome = true := by
  induction items with
  | nil => simp at h
  | cons x xs ih =>
    rw [findLastBy]
    cases hg : findLastBy key xs lid with
    | some g => rfl
    | none =>
      simp only [List.any_cons, Bool.or_eq_true] at h
      cases h with
      | inl hb =>
        have hk : key x = lid := by simpa using hb
        simp [hk]
      | inr hbs =>
        have := ih hbs
        rw [hg] at this
        cases this

-- ===========================================================================
-- performSync unfolding lemmas
-- ===========================================================================

theorem performSync_busy (s : SyncServiceState) (ty : SyncType) (gw : GatewayResult)
    (now : Nat) (h2 : s.isSyncing = true) :
    performSync s ty gw now = (s, none) := by
  cases hc : s.config with
  | none => simp [performSync, syncBegin, hc]
  | some cfg => simp [performSync, syncBegin, hc, h2]

theorem syncBegin_admitted (s : SyncServiceState) (cfg : TerminalConfig) (ty : SyncType)
    (now : Nat) (h1 : s.config = some cfg) (h2 : s.isSyncing = false) :
    syncBegin s ty now =
      ({ s with db := logSyncStart s.db ty now, isSyncing := true },
       some s.db.syncLog.length) := by
  simp [syncBegin, h1, h2]

theorem performSync_transport (s : SyncServiceState) (cfg : TerminalConfig) (ty : SyncType)
    (now : Nat) (msg : String) (h1 : s.config = some cfg) (h2 : s.isSyncing = false) :
    performSync s ty (.transportFailure msg) now =
      ({ s with db := logSyncFailed (logSyncStart s.db ty now) s.db.syncLog.length now msg,
                isSyncing := false, isOnline := false,
                retryCount := if s.retryCount < s.maxRetries then s.retryCount + 1
                              else s.retryCount },
       none) := by
  simp [performSync, syncBegin, syncFinish, h1, h2]

theorem performSync_success (s : SyncServiceState) (cfg : TerminalConfig) (ty : SyncType)
    (r : SyncResponse) (now : Nat) (h1 : s.config = some cfg) (h2 : s.isSyncing = false)
    (hs : r.success = true) :
    performSync s ty (.response r) now =
      ({ s with
           db := (applySuccessResponse (logSyncStart s.db ty now) cfg r now
                    s.db.syncLog.length).1,
           config := some (applySuccessResponse (logSyncStart s.db ty now) cfg r now
                    s.db.syncLog.length).2,
           isSyncing := false, isOnline := true, retryCount := 0 },
       some r) := by
  simp [performSync, syncBegin, syncFinish, h1, h2, hs]

-- ===========================================================================
-- applySuccessResponse projections
-- ===========================================================================

theorem applySuccessResponse_lastSyncAt (db : DbState) (cfg : TerminalConfig)
    (r : SyncResponse) (now logId : Nat) :
    (applySuccessResponse db cfg r now logId).2.lastSyncAt = some r.serverTimestamp := by
  rcases hs : r.settings with _ | st <;>
    simp [applySuccessResponse, hs, updateSettings]

theorem applySuccessResponse_config (db : DbState) (cfg : TerminalConfig)
    (r : SyncResponse) (now logId : Nat) :
    (applySuccessResponse db cfg r now logId).1.config =
      some (storedConfig (applySuccessResponse db cfg r now logId).2) := by
  rcases hs : r.settings with _ | st <;>
    simp [applySuccessResponse, hs, updateSettings, saveTerminalConfig, logSyncComplete]

theorem applySuccessResponse_checkins (db : DbState) (cfg : TerminalConfig)
    (r : SyncResponse) (now logId : Nat) :
    (applySuccessResponse db cfg r now logId).1.checkins =
      handleConflicts
        (markFailedFold
          (markSyncedFold db.checkins
            (((getPendingCheckins db).filter
                (fun c => !(r.failedRecords.any (fun f => f.localId == c.localId)))).map
              (fun c => c.localId))
            now)
          r.failedRecords)
        r.conflicts := by
  rcases hcf : r.conflicts with _ | ⟨cf, cfs⟩ <;>
    rcases hs : r.settings with _ | st <;>
      simp [applySuccessResponse, hcf, hs, updateSettings, saveTerminalConfig,
            logSyncComplete, handleConflicts] <;>
      split <;> rfl

-- ===========================================================================
-- C1: checkpoint monotonicity
-- ===========================================================================

/-- C1 counterexample: with the stored checkpoint at 100 before the attempt, a
successful attempt whose response carries serverTimestamp 50 leaves both the
in-memory and the persisted checkpoint at 50, strictly below the previous
checkpoint, so the checkpoint does move backward. -/
theorem C1_counterexample :
    s1c.config.map (fun c => c.lastSyncAt) = some (some 100) ∧
    (performSync s1c SyncType.incremental (GatewayResult.response r1c) 777).1.config.map
      (fun c => c.lastSyncAt) = some (some 50) ∧
    (performSync s1c SyncType.incremental (GatewayResult.response r1c) 777).1.db.config.map
      (fun c => c.lastSyncAt) = some (some 50) ∧
    ¬ (100 ≤ 50) := by
  decide

/-- C1 amended: after every successful attempt the checkpoint is set to exactly
the serverTimestamp of the response, with no clamping against the previous
value, so it decreases whenever the server reports an earlier timestamp; the
persisted row stores the same value through a falsy coercion. -/
theorem C1_checkpoint_equals_server_timestamp (s : SyncServiceState)
    (cfg : TerminalConfig) (ty : SyncType) (r : SyncResponse) (now : Nat)
    (h1 : s.config = some cfg) (h2 : s.isSyncing = false) (hs : r.success = true) :
    ∃ cfg', (performSync s ty (.response r) now).1.config = some cfg' ∧
      cfg'.lastSyncAt = some r.serverTimestamp ∧
      (performSync s ty (.response r) now).1.db.config.map (fun c => c.lastSyncAt) =
        some (jsOrNullNat (some r.serverTimestamp)) := by
  rw [performSync_success s cfg ty r now h1 h2 hs]
  dsimp only
  refine ⟨_, rfl, applySuccessResponse_lastSyncAt _ _ _ _ _, ?_⟩
  rw [applySuccessResponse_config]
  simp [storedConfig, applySuccessResponse_lastSyncAt]

/-- C1 witness: the amended statement evaluated on the concrete backward run. -/
theorem C1_witness :
    ∃ cfg', (performSync s1c SyncType.incremental (GatewayResult.response r1c) 777).1.config
        = some cfg' ∧
      cfg'.lastSyncAt = some 50 ∧
      (performSync s1c SyncType.incremental (GatewayResult.response r1c) 777).1.db.config.map
        (fun c => c.lastSyncAt) = some (some 50) :=
  C1_checkpoint_equals_server_timestamp s1c cfgW SyncType.incremental r1c 777 rfl rfl rfl

-- ===========================================================================
-- C2: append contract of the event store
-- ===========================================================================

/-- C2 counterexample: appending a record created with syncStatus synced into
an empty store succeeds and stores that record with syncStatus synced, not
pending: saveCheckin writes the syncStatus field of the given record verbatim
rather than forcing pending. -/
theorem C2_counterexample :
    saveCheckin [] w2a = .ok [storedCheckin w2a] ∧
    (storedCheckin w2a).syncStatus = SyncStatus.synced ∧
    SyncStatus.synced ≠ SyncStatus.pending := by
  decide

/-- C2 amended: appending an event whose localId already exists fails with the
duplicate-id error and leaves the store unchanged; appending a fresh localId
inserts exactly one row carrying the syncStatus of the given record — which is
pending for every record the check-in service creates, as checkIn always
builds its record with syncStatus pending. -/
theorem C2_append_contract (store : List CheckinRecord) (r : CheckinRecord) :
    (store.any (fun c => c.localId == r.localId) = true →
       saveCheckin store r = .error .duplicateId) ∧
    (store.any (fun c => c.localId == r.localId) = false →
       saveCheckin store r = .ok (store ++ [storedCheckin r]) ∧
       (storedCheckin r).syncStatus = r.syncStatus) ∧
    (∀ db uid uname am hash lid now today online q,
       checkIn db uid uname am hash lid now today online = .ok q →
       q.2.syncStatus = .pending) := by
  refine ⟨fun h => ?_, fun h => ⟨?_, rfl⟩, ?_⟩
  · simp [saveCheckin, h]
  · simp [saveCheckin, h]
  · intro db uid uname am hash lid now today online q h
    simp only [checkIn] at h
    split at h
    · simp at h
    · cases h
      rfl

/-- C2 witness: the contract evaluated on concrete stores and records. -/
theorem C2_witness :
    saveCheckin [storedCheckin w2a] w2b = .error DbError.duplicateId ∧
    saveCheckin [] w2b = .ok [storedCheckin w2b] := by
  constructor
  · exact (C2_append_contract [storedCheckin w2a] w2b).1 (by decide)
  · exact ((C2_append_contract [] w2b).2.1 (by decide)).1

-- ===========================================================================
-- C3: transport failure leaves events and checkpoint untouched
-- ===========================================================================

/-- C3: when the gateway call yields no response, the attempt changes no event
status, leaves the checkpoint unchanged in memory and in the store, leaves the
status table unchanged, and finalizes the SyncSession opened for the attempt
as failed. -/
theorem C3_transport_failure (s : SyncServiceState) (cfg : TerminalConfig)
    (ty : SyncType) (now : Nat) (msg : String)
    (h1 : s.config = some cfg) (h2 : s.isSyncing = false) :
    (performSync s ty (.transportFailure msg) now).2 = none ∧
    (performSync s ty (.transportFailure msg) now).1.db.checkins = s.db.checkins ∧
    (performSync s ty (.transportFailure msg) now).1.config = s.config ∧
    (performSync s ty (.transportFailure msg) now).1.db.config = s.db.config ∧
    (performSync s ty (.transportFailure msg) now).1.db.userStatus = s.db.userStatus ∧
    ∃ e, (performSync s ty (.transportFailure msg) now).1.db.syncLog =
           s.db.syncLog ++ [e] ∧
         e.status = "failed" ∧ e.syncType = ty ∧ e.completedAt = some now ∧
         e.errorMessage = some msg := by
  rw [performSync_transport s cfg ty now msg h1 h2]
  refine ⟨rfl, rfl, rfl, rfl, rfl, ?_⟩
  refine ⟨{ syncType := ty, startedAt := now, completedAt := some now,
            recordsSent := 0, recordsReceived := 0, recordsFailed := 0,
            status := "failed", errorMessage := some msg }, ?_, rfl, rfl, rfl, rfl⟩
  show (logSyncFailed (logSyncStart s.db ty now) s.db.syncLog.length now msg).syncLog = _
  simp only [logSyncFailed, logSyncStart]
  exact modifyAt_append_self _ _ _

/-- C3 witness: a transport failure on the three-event state. -/
theorem C3_witness :
    (performSync s4w SyncType.incremental (GatewayResult.transportFailure "Network Error")
        999).2 = none ∧
    (performSync s4w SyncType.incremental (GatewayResult.transportFailure "Network Error")
        999).1.db.checkins = s4w.db.checkins ∧
    (performSync s4w SyncType.incremental (GatewayResult.transportFailure "Network Error")
        999).1.config = s4w.config ∧
    ∃ e, (performSync s4w SyncType.incremental (GatewayResult.transportFailure "Network Error")
        999).1.db.syncLog = s4w.db.syncLog ++ [e] ∧ e.status = "failed" := by
  have h := C3_transport_failure s4w cfgW SyncType.incremental 999 "Network Error" rfl rfl
  obtain ⟨e, he, hst, _, _, _⟩ := h.2.2.2.2.2
  exact ⟨h.1, h.2.1, h.2.2.1, e, he, hst⟩

-- ===========================================================================
-- C4: batch handling with per-record failures
-- ===========================================================================

/-- C4 counterexample: a batch of one pending event, a successful response with
an empty failedRecords list but a use_server conflict directive naming that
event, leaves the event with status conflict, not synced — conflict handling
runs after the accept/fail marking and overrides it, so the claim as stated
over every successful response fails. -/
theorem C4_counterexample :
    s4c.db.checkins.map (fun c => c.syncStatus) = [SyncStatus.pending] ∧
    r4c.success = true ∧
    r4c.failedRecords = [] ∧
    (performSync s4c SyncType.incremental (GatewayResult.response r4c) 999).1.db.checkins.map
      (fun c => c.syncStatus) = [SyncStatus.conflict] := by
  decide

/-- C4 amended: over a successful response, every sent event that is named
neither in failedRecords nor in a conflict directive is marked synced with the
client time at which the acknowledgment was processed; every sent event named
in failedRecords but not in a conflict directive is marked failed with the
reported error; and the checkpoint advances to the serverTimestamp of the
response. In particular three pending events with one in failedRecords yield
two synced and one failed. -/
theorem C4_partial_batch (s : SyncServiceState) (cfg : TerminalConfig) (ty : SyncType)
    (r : SyncResponse) (now : Nat)
    (h1 : s.config = some cfg) (h2 : s.isSyncing = false) (hs : r.success = true)
    (hnow : now ≠ 0) :
    (∀ c ∈ s.db.checkins, isQueued c.syncStatus = true →
       r.conflicts.any (fun cf => cf.localId == c.localId) = false →
       (r.failedRecords.any (fun f => f.localId == c.localId) = false →
          ∃ c' ∈ (performSync s ty (.response r) now).1.db.checkins,
            c'.localId = c.localId ∧ c'.syncStatus = .synced ∧ c'.syncedAt = some now) ∧
       (r.failedRecords.any (fun f => f.localId == c.localId) = true →
          ∃ c' ∈ (performSync s ty (.response r) now).1.db.checkins,
            c'.localId = c.localId ∧ c'.syncStatus = .failed ∧
            ∃ g ∈ r.failedRecords, g.localId = c.localId ∧
              c'.syncError = jsOrNullStr (some g.error))) ∧
    (∃ cfg', (performSync s ty (.response r) now).1.config = some cfg' ∧
       cfg'.lastSyncAt = some r.serverTimestamp) := by
  have hchk : (performSync s ty (.response r) now).1.db.checkins =
      handleConflicts
        (markFailedFold
          (markSyncedFold s.db.checkins
            (((getPendingCheckins s.db).filter
                (fun c => !(r.failedRecords.any (fun f => f.localId == c.localId)))).map
              (fun c => c.localId))
            now)
          r.failedRecords)
        r.conflicts := by
    rw [performSync_success s cfg ty r now h1 h2 hs]
    exact applySuccessResponse_checkins (logSyncStart s.db ty now) cfg r now
      s.db.syncLog.length
  constructor
  · intro c hc hq hcf
    constructor
    · intro hnofr
      rw [hchk, handleConflicts_eq, markFailedFold_eq, markSyncedFold_eq]
      refine ⟨_, List.mem_map_of_mem _ (List.mem_map_of_mem _ (List.mem_map_of_mem _ hc)),
              ?_⟩
      dsimp only
      have hpend : c ∈ getPendingCheckins s.db := mem_getPendingCheckins.mpr ⟨hc, hq⟩
      have hfil : c ∈ (getPendingCheckins s.db).filter
          (fun c => !(r.failedRecords.any (fun f => f.localId == c.localId))) :=
        List.mem_filter.mpr ⟨hpend, by rw [hnofr]; rfl⟩
      have hany : ((((getPendingCheckins s.db).filter
          (fun c => !(r.failedRecords.any (fun f => f.localId == c.localId)))).map
            (fun c => c.localId)).any (fun lid => lid == c.localId)) = true :=
        List.any_eq_true.mpr ⟨c.localId, List.mem_map_of_mem _ hfil, by simp⟩
      obtain ⟨g, hg⟩ := Option.isSome_iff_exists.mp
        (findLastBy_isSome (fun lid => lid) _ c.localId hany)
      have hm1 : ((findLastBy (fun lid => lid)
          (((getPendingCheckins s.db).filter
              (fun c => !(r.failedRecords.any (fun f => f.localId == c.localId)))).map
            (fun c => c.localId)) c.localId).map (fun _ => syncMark now c)).getD c
          = syncMark now c := by
        rw [hg]; rfl
      rw [hm1]
      rw [findLastBy_eq_none (fun f => f.localId) r.failedRecords
            (syncMark now c).localId hnofr]
      dsimp only [Option.map_none', Option.getD_none]
      rw [findLastBy_eq_none (fun cf => cf.localId) r.conflicts
            (syncMark now c).localId hcf]
      dsimp only [Option.map_none', Option.getD_none]
      exact ⟨rfl, rfl, by simp [syncMark, jsOrNullNat, hnow]⟩
    · intro hfr
      rw [hchk, handleConflicts_eq, markFailedFold_eq, markSyncedFold_eq]
      refine ⟨_, List.mem_map_of_mem _ (List.mem_map_of_mem _ (List.mem_map_of_mem _ hc)),
              ?_⟩
      dsimp only
      have hnotin : ((((getPendingCheckins s.db).filter
          (fun c => !(r.failedRecords.any (fun f => f.localId == c.localId)))).map
            (fun c => c.localId)).any (fun lid => lid == c.localId)) = false := by
        by_contra hcon
        rw [Bool.not_eq_false] at hcon
        obtain ⟨lid, hlmem, hlid⟩ := List.any_eq_true.mp hcon
        obtain ⟨d, hdmem, hdid⟩ := List.mem_map.mp hlmem
        have hdp := (List.mem_filter.mp hdmem).2
        have hlid' : lid = c.localId := by simpa using hlid
        have hdc : d.localId = c.localId := by rw [hdid, hlid']
        simp only [hdc] at hdp
        simp [hfr] at hdp
      have hm1 : ((findLastBy (fun lid => lid)
          (((getPendingCheckins s.db).filter
              (fun c => !(r.failedRecords.any (fun f => f.localId == c.localId)))).map
            (fun c => c.localId)) c.localId).map (fun _ => syncMark now c)).getD c
          = c := by
        rw [findLastBy_eq_none _ _ _ hnotin]; rfl
      rw [hm1]
      obtain ⟨g, hg⟩ := Option.isSome_iff_exists.mp
        (findLastBy_isSome (fun f => f.localId) r.failedRecords c.localId hfr)
      have hgin := findLastBy_some (fun f => f.localId) r.failedRecords c.localId g hg
      rw [hg]
      dsimp only [Option.map_some', Option.getD_some]
      rw [findLastBy_eq_none (fun cf => cf.localId) r.conflicts
            (failMark g c).localId hcf]
      dsimp only [Option.map_none', Option.getD_none]
      exact ⟨rfl, rfl, g, hgin.1, hgin.2, rfl⟩
  · rw [performSync_success s cfg ty r now h1 h2 hs]
    dsimp only
    exact ⟨_, rfl, applySuccessResponse_lastSyncAt _ _ _ _ _⟩

/-- C4 witness: three pending events with e2 reported failed yield two synced
events and one failed event, and the checkpoint advances to 200. -/
theorem C4_witness :
    ((performSync s4w SyncType.incremental (GatewayResult.response r4w) 999).1.db.checkins.filter
        (fun c => c.syncStatus == SyncStatus.synced)).length = 2 ∧
    ((performSync s4w SyncType.incremental (GatewayResult.response r4w) 999).1.db.checkins.filter
        (fun c => c.syncStatus == SyncStatus.failed)).length = 1 ∧
    (∃ cfg', (performSync s4w SyncType.incremental (GatewayResult.response r4w) 999).1.config
        = some cfg' ∧ cfg'.lastSyncAt = some 200) := by
  refine ⟨by decide, by decide, ?_⟩
  exact (C4_partial_batch s4w cfgW SyncType.incremental r4w 999 rfl rfl rfl
    (by decide)).2

-- ===========================================================================
-- C5: lazy read-time daily rollover
-- ===========================================================================

/-- C5: when the stored row of a user carries a status date different from
today, a status read returns a cleared status (not checked in, not on break,
session start cleared, zero minutes) and persists the reset, with the status
date stamped to today, in the stored row before returning; the rest of the
database is untouched. -/
theorem C5_read_time_rollover (db : DbState) (uid : Nat) (today : String)
    (row : UserStatusRow)
    (hrow : lookupStatus db.userStatus uid = some row)
    (hdate : row.todayDate ≠ today) :
    (getUserStatus db uid today).2 =
      some { userId := uid, userName := "", isCheckedIn := false, isOnBreak := false,
             lastCheckIn := none, lastCheckOut := none, currentSessionStart := none,
             totalTodayMinutes := 0 } ∧
    lookupStatus (getUserStatus db uid today).1.userStatus uid =
      some { row with
             isCheckedIn := false, isOnBreak := false,
             currentSessionStart := none, totalTodayMinutes := 0,
             todayDate := today } ∧
    (getUserStatus db uid today).1.checkins = db.checkins ∧
    (getUserStatus db uid today).1.config = db.config := by
  have hgs : getUserStatus db uid today =
      (resetDailyStatus db uid today,
       some { userId := uid, userName := "", isCheckedIn := false, isOnBreak := false,
              lastCheckIn := none, lastCheckOut := none, currentSessionStart := none,
              totalTodayMinutes := 0 }) := by
    simp only [getUserStatus, hrow]
    rw [if_pos hdate]
  rw [hgs]
  refine ⟨rfl, ?_, rfl, rfl⟩
  show lookupStatus (setStatusRow db.userStatus uid _) uid = _
  rw [lookupStatus_setStatusRow, hrow]
  rfl

/-- C5 witness: the stale checked-in row with 120 minutes from the previous
day reads back cleared on the new day and the reset is persisted. -/
theorem C5_witness :
    (getUserStatus db5x 7 "2026-10-12").2 =
      some { userId := 7, userName := "", isCheckedIn := false, isOnBreak := false,
             lastCheckIn := none, lastCheckOut := none, currentSessionStart := none,
             totalTodayMinutes := 0 } ∧
    lookupStatus (getUserStatus db5x 7 "2026-10-12").1.userStatus 7 =
      some { rowY with
             isCheckedIn := false, isOnBreak := false,
             currentSessionStart := none, totalTodayMinutes := 0,
             todayDate := "2026-10-12" } := by
  have h := C5_read_time_rollover db5x 7 "2026-10-12" rowY rfl (by decide)
  exact ⟨h.1, h.2.1⟩

-- ===========================================================================
-- C6: conflict resolution policy
-- ===========================================================================

/-- C6: for a conflict directive naming an event present in the store,
resolution use_local resets the event to pending and the event appears in the
next pending-and-failed query; resolutions use_server and manual mark the
event conflict with an annotation naming the conflict kind; and conflict
handling never deletes events — the store keeps its length under every
directive list. -/
theorem C6_conflict_resolution (store : List CheckinRecord) (cf : ConflictRecord)
    (cfs : List ConflictRecord) (c : CheckinRecord)
    (hc : c ∈ store) (hid : c.localId = cf.localId) :
    (cf.resolution = .use_local →
       ∃ c' ∈ handleConflict store cf, c'.localId = c.localId ∧
         c'.syncStatus = .pending ∧
         ∀ db' : DbState, db'.checkins = handleConflict store cf →
           c' ∈ getPendingCheckins db') ∧
    (cf.resolution = .use_server →
       ∃ c' ∈ handleConflict store cf, c'.localId = c.localId ∧
         c'.syncStatus = .conflict ∧
         c'.syncError = some ("Resolved: " ++ conflictTypeStr cf.conflictType)) ∧
    (cf.resolution = .manual →
       ∃ c' ∈ handleConflict store cf, c'.localId = c.localId ∧
         c'.syncStatus = .conflict ∧
         c'.syncError = some ("Manual resolution required: " ++
           conflictTypeStr cf.conflictType)) ∧
    (handleConflicts store cfs).length = store.length := by
  have hmem : conflictMark cf c ∈ handleConflict store cf := by
    rw [handleConflict_eq]
    have h := List.mem_map_of_mem
      (fun c => if c.localId = cf.localId then conflictMark cf c else c) hc
    simpa [if_pos hid] using h
  refine ⟨fun hres => ?_, fun hres => ?_, fun hres => ?_, ?_⟩
  · refine ⟨conflictMark cf c, hmem, conflictMark_localId cf c, ?_, ?_⟩
    · simp [conflictMark, hres]
    · intro db' hdb'
      apply mem_getPendingCheckins.mpr
      refine ⟨by rw [hdb']; exact hmem, ?_⟩
      simp [conflictMark, hres, isQueued]
  · refine ⟨conflictMark cf c, hmem, conflictMark_localId cf c, ?_, ?_⟩
    · simp [conflictMark, hres]
    · have hne : ("Resolved: " ++ conflictTypeStr cf.conflictType) ≠ "" := by
        cases h : cf.conflictType <;> decide
      simp [conflictMark, hres, jsOrNullStr, hne]
  · refine ⟨conflictMark cf c, hmem, conflictMark_localId cf c, ?_, ?_⟩
    · simp [conflictMark, hres]
    · have hne : ("Manual resolution required: " ++ conflictTypeStr cf.conflictType) ≠ "" := by
        cases h : cf.conflictType <;> decide
      simp [conflictMark, hres, jsOrNullStr, hne]
  · rw [handleConflicts_eq]
    exact List.length_map _ _

/-- C6 witness: the failed event e1 is reset to pending by a use_local
directive and reappears in the queue, is annotated by a use_server directive,
and the store length is preserved by a two-directive list. -/
theorem C6_witness :
    (∃ c' ∈ handleConflict storeL cfL, c'.localId = evF.localId ∧
       c'.syncStatus = SyncStatus.pending ∧
       ∀ db' : DbState, db'.checkins = handleConflict storeL cfL →
         c' ∈ getPendingCheckins db') ∧
    (∃ c' ∈ handleConflict storeL cfS, c'.localId = evF.localId ∧
       c'.syncStatus = SyncStatus.conflict ∧
       c'.syncError = some ("Resolved: " ++ conflictTypeStr cfS.conflictType)) ∧
    (handleConflicts storeL [cfL, cfS]).length = storeL.length := by
  refine ⟨?_, ?_, ?_⟩
  · exact (C6_conflict_resolution storeL cfL [cfL, cfS] evF (by simp [storeL]) rfl).1 rfl
  · exact (C6_conflict_resolution storeL cfS [cfL, cfS] evF (by simp [storeL]) rfl).2.1 rfl
  · exact (C6_conflict_resolution storeL cfL [cfL, cfS] evF (by simp [storeL]) rfl).2.2.2

-- ===========================================================================
-- C7: single-flight guard
-- ===========================================================================

/-- C7: a sync trigger arriving while an attempt is running returns without
opening a SyncSession record or changing any state, so an admitted attempt
followed by a simultaneous second trigger produces exactly one SyncSession
record. -/
theorem C7_single_flight (s : SyncServiceState) (cfg : TerminalConfig)
    (ty ty' : SyncType) (gw gw' : GatewayResult) (now now' : Nat)
    (h1 : s.config = some cfg) :
    (s.isSyncing = true → performSync s ty gw now = (s, none)) ∧
    (s.isSyncing = false →
       (syncBegin s ty now).1.db.syncLog.length = s.db.syncLog.length + 1 ∧
       performSync (syncBegin s ty now).1 ty' gw' now' = ((syncBegin s ty now).1, none) ∧
       (syncBegin s ty now).1.db.checkins = s.db.checkins ∧
       (syncBegin s ty now).1.config = s.config) := by
  constructor
  · intro h2
    exact performSync_busy s ty gw now h2
  · intro h2
    rw [syncBegin_admitted s cfg ty now h1 h2]
    refine ⟨?_, ?_, rfl, rfl⟩
    · show (logSyncStart s.db ty now).syncLog.length = _
      simp [logSyncStart]
    · exact performSync_busy _ ty' gw' now' rfl

/-- C7 witness: the guard evaluated on the three-event state: the admitted
attempt opens exactly one session row and the second simultaneous trigger is
a no-op. -/
theorem C7_witness :
    (syncBegin s4w SyncType.incremental 999).1.db.syncLog.length =
      s4w.db.syncLog.length + 1 ∧
    performSync (syncBegin s4w SyncType.incremental 999).1 SyncType.full
      (GatewayResult.response r4w) 1000 =
      ((syncBegin s4w SyncType.incremental 999).1, none) := by
  have h := (C7_single_flight s4w cfgW SyncType.incremental SyncType.full
    (GatewayResult.transportFailure "x") (GatewayResult.response r4w) 999 1000 rfl).2 rfl
  exact ⟨h.1, h.2.1⟩

-- ===========================================================================
-- C8: toggle decision
-- ===========================================================================

/-- C8: toggle first reads the status of the user with the rollover applied;
when the user is absent or not checked in it performs a check-in and returns
kind check_in, and whenever the read status has isCheckedIn true — regardless
of the break flag — it performs a check-out and returns kind check_out. -/
theorem C8_toggle_decision (db : DbState) (uid : Nat) (uname : String)
    (am : AuthMethod) (hash : Option String) (lid : String) (now : Nat)
    (today : String) (online : Bool) :
    ((getUserStatus db uid today).2.elim true (fun st => !st.isCheckedIn) = true →
       toggleCheckin db uid uname am hash lid now today online =
         (checkIn (getUserStatus db uid today).1 uid uname am hash lid now today
             online).map (fun q => (q.1, CheckType.check_in, q.2))) ∧
    (∀ st, (getUserStatus db uid today).2 = some st → st.isCheckedIn = true →
       toggleCheckin db uid uname am hash lid now today online =
         (checkOut (getUserStatus db uid today).1 uid uname am hash lid now today
             online).map (fun q => (q.1, CheckType.check_out, q.2))) := by
  constructor
  · intro h
    simp [toggleCheckin, h]
  · intro st hst hci
    have h : (getUserStatus db uid today).2.elim true (fun st => !st.isCheckedIn)
        = false := by
      rw [hst]
      simp [hci]
    simp [toggleCheckin, h]

/-- C8 witness: a user without a status row gets a check-in; a user who is
checked in and on break gets a check-out, not a break end; the two-toggle
scenario yields check_in then, 90 minutes later, check_out with 90 minutes
accumulated and isCheckedIn false. -/
theorem C8_witness :
    (toggleCheckin dbT 7 "Alice" AuthMethod.nfc none "a1" 60000 "2026-10-12" true =
      (checkIn (getUserStatus dbT 7 "2026-10-12").1 7 "Alice" AuthMethod.nfc none
          "a1" 60000 "2026-10-12" true).map
        (fun q => (q.1, CheckType.check_in, q.2))) ∧
    (toggleCheckin dbBreak 7 "Alice" AuthMethod.nfc none "b1" 60000 "2026-10-12" true =
      (checkOut (getUserStatus dbBreak 7 "2026-10-12").1 7 "Alice" AuthMethod.nfc none
          "b1" 60000 "2026-10-12" true).map
        (fun q => (q.1, CheckType.check_out, q.2))) ∧
    (toggleCheckin dbT 7 "Alice" AuthMethod.nfc none "a1" 60000 "2026-10-12" true).map
      (fun q => (q.2.1, (lookupStatus q.1.userStatus 7).map (fun r => r.isCheckedIn)))
      = Except.ok (CheckType.check_in, some true) ∧
    (toggleCheckin dbAfter1 7 "Alice" AuthMethod.nfc none "a2" 5460000 "2026-10-12"
        true).map
      (fun q => (q.2.1, (lookupStatus q.1.userStatus 7).map
        (fun r => (r.isCheckedIn, r.totalTodayMinutes))))
      = Except.ok (CheckType.check_out, some (false, (90 : Int))) := by
  refine ⟨?_, ?_, by decide, by decide⟩
  · exact (C8_toggle_decision dbT 7 "Alice" AuthMethod.nfc none "a1" 60000
      "2026-10-12" true).1 (by decide)
  · exact (C8_toggle_decision dbBreak 7 "Alice" AuthMethod.nfc none "b1" 60000
      "2026-10-12" true).2
      { userId := 7, userName := "", isCheckedIn := true, isOnBreak := true,
        lastCheckIn := some 60000, lastCheckOut := none,
        currentSessionStart := some 60000, totalTodayMinutes := 0 }
      (by decide) rfl

-- ===========================================================================
-- C9: updateSyncStatus contract
-- ===========================================================================

/-- A map whose function fixes every member of the list is the identity. -/
theorem map_id_of_eq {a : Type} {l : List a} {f : a → a}
    (h : ∀ x ∈ l, f x = x) : l.map f = l := by
  induction l with
  | nil => rfl
  | cons x xs ih =>
    simp only [List.map_cons, h x (List.mem_cons_self _ _)]
    rw [ih (fun y hy => h y (List.mem_cons_of_mem _ hy))]

/-- A successful saveCheckin returns exactly the old rows followed by the one
new row. -/
theorem saveCheckin_ok_shape (store : List CheckinRecord) (r : CheckinRecord)
    (cs : List CheckinRecord) (h : saveCheckin store r = .ok cs) :
    cs = store ++ [storedCheckin r] := by
  by_cases hc : store.any (fun c => c.localId == r.localId) = true
  · rw [saveCheckin, if_pos hc] at h
    exact Except.noConfusion h
  · rw [saveCheckin, if_neg hc] at h
    injection h with h
    exact h.symm

/-- Status writes never touch the checkins table. -/
theorem updateUserStatus_checkins (db : DbState) (uid : Nat) (u : UserStatusUpdates)
    (today : String) : (updateUserStatus db uid u today).checkins = db.checkins := by
  unfold updateUserStatus
  split <;> rfl

/-- Status reads, rollover included, never touch the checkins table. -/
theorem getUserStatus_checkins (db : DbState) (uid : Nat) (today : String) :
    (getUserStatus db uid today).1.checkins = db.checkins := by
  unfold getUserStatus
  cases lookupStatus db.userStatus uid with
  | none => rfl
  | some row =>
    dsimp only
    split <;> rfl

/-- A successful checkIn changes the checkins table only by appending one new
row after the existing ones. -/
theorem checkIn_checkins (db : DbState) (uid : Nat) (uname : String)
    (am : AuthMethod) (hash : Option String) (lid : String) (now : Nat)
    (today : String) (online : Bool) (q : DbState × CheckinRecord)
    (h : checkIn db uid uname am hash lid now today online = .ok q) :
    ∃ rec, q.1.checkins = db.checkins ++ [rec] := by
  simp only [checkIn] at h
  split at h
  · exact absurd h (by simp)
  · rename_i cs hsv
    cases h
    exact ⟨_, by rw [updateUserStatus_checkins]; exact saveCheckin_ok_shape _ _ _ hsv⟩

/-- A successful checkOut changes the checkins table only by appending one new
row after the existing ones. -/
theorem checkOut_checkins (db : DbState) (uid : Nat) (uname : String)
    (am : AuthMethod) (hash : Option String) (lid : String) (now : Nat)
    (today : String) (online : Bool) (q : DbState × CheckinRecord)
    (h : checkOut db uid uname am hash lid now today online = .ok q) :
    ∃ rec, q.1.checkins = db.checkins ++ [rec] := by
  simp only [checkOut] at h
  split at h
  · exact absurd h (by simp)
  · rename_i cs hsv
    cases h
    have hcs := saveCheckin_ok_shape _ _ _ hsv
    exact ⟨_, by rw [updateUserStatus_checkins, getUserStatus_checkins]; exact hcs⟩

/-- A successful startBreak changes the checkins table only by appending one
new row after the existing ones. -/
theorem startBreak_checkins (db : DbState) (uid : Nat) (uname : String)
    (am : AuthMethod) (lid : String) (now : Nat) (today : String) (online : Bool)
    (q : DbState × CheckinRecord)
    (h : startBreak db uid uname am lid now today online = .ok q) :
    ∃ rec, q.1.checkins = db.checkins ++ [rec] := by
  simp only [startBreak] at h
  split at h
  · exact absurd h (by simp)
  · rename_i cs hsv
    cases h
    exact ⟨_, by rw [updateUserStatus_checkins]; exact saveCheckin_ok_shape _ _ _ hsv⟩

/-- A successful endBreak changes the checkins table only by appending one new
row after the existing ones. -/
theorem endBreak_checkins (db : DbState) (uid : Nat) (uname : String)
    (am : AuthMethod) (lid : String) (now : Nat) (today : String) (online : Bool)
    (q : DbState × CheckinRecord)
    (h : endBreak db uid uname am lid now today online = .ok q) :
    ∃ rec, q.1.checkins = db.checkins ++ [rec] := by
  simp only [endBreak] at h
  split at h
  · exact absurd h (by simp)
  · rename_i cs hsv
    cases h
    exact ⟨_, by rw [updateUserStatus_checkins]; exact saveCheckin_ok_shape _ _ _ hsv⟩

/-- Every row surviving the retention purge is one of the original rows,
unmodified. -/
theorem deleteOldSyncedCheckins_subset (store : List CheckinRecord) (d now : Nat) :
    ∀ c' ∈ (deleteOldSyncedCheckins store d now).1, c' ∈ store := by
  intro c' hc'
  exact List.mem_of_mem_filter hc'

/-- The retention purge never removes a row whose status is not synced. -/
theorem deleteOldSyncedCheckins_keeps_unsynced (store : List CheckinRecord)
    (d now : Nat) (c : CheckinRecord) (hc : c ∈ store)
    (hs : c.syncStatus ≠ .synced) :
    c ∈ (deleteOldSyncedCheckins store d now).1 := by
  have hp : (!((c.syncStatus == SyncStatus.synced) &&
      decide ((c.timestamp : Int) < (now : Int) - (d : Int) * 24 * 60 * 60 * 1000)))
      = true := by
    simp [hs]
  exact List.mem_filter.mpr ⟨hc, hp⟩

/-- C9 counterexample: an UPDATE addressed by a localId that is absent from
the store completes as a no-op, returning the store unchanged — the embedded
operation is total because the underlying SQL UPDATE cannot fail, so no
not-found error is ever raised, contradicting the claimed NotFoundError. -/
theorem C9_counterexample :
    (s4w.db.checkins.any (fun c => c.localId == "missing") = false) ∧
    updateCheckinSyncStatus s4w.db.checkins "missing" SyncStatus.synced (some 5) none
      = s4w.db.checkins := by
  decide

/-- C9 amended: for an absent localId, updateCheckinSyncStatus is a silent
no-op that leaves the store unchanged and raises no error; it remains the only
mutation path after creation — the status, config and sync-log writes never
touch the checkins table, the append paths of the state tracker only add one
new row after the existing ones, and the retention purge only removes synced
rows without modifying survivors — and on the addressed row it overwrites
exactly the three sync columns, preserving the row count, the identity fields
and the payload fields of every event and leaving every other row unchanged. -/
theorem C9_update_contract (store : List CheckinRecord) (lid : String)
    (status : SyncStatus) (sa : Option Nat) (se : Option String) :
    (store.any (fun c => c.localId == lid) = false →
       updateCheckinSyncStatus store lid status sa se = store) ∧
    (updateCheckinSyncStatus store lid status sa se).length = store.length ∧
    (∀ c' ∈ updateCheckinSyncStatus store lid status sa se, ∃ c ∈ store,
       c'.localId = c.localId ∧ c'.userId = c.userId ∧ c'.userName = c.userName ∧
       c'.checkType = c.checkType ∧ c'.timestamp = c.timestamp ∧
       c'.authMethod = c.authMethod ∧ c'.nfcCardHash = c.nfcCardHash ∧
       c'.createdOffline = c.createdOffline ∧
       (c.localId ≠ lid → c' = c) ∧
       (c.localId = lid → c'.syncStatus = status ∧ c'.syncedAt = jsOrNullNat sa ∧
          c'.syncError = jsOrNullStr se)) ∧
    (∀ r, store.any (fun c => c.localId == r.localId) = false →
       saveCheckin store r = .ok (store ++ [storedCheckin r])) ∧
    (∀ db : DbState, ∀ uid : Nat, ∀ u : UserStatusUpdates, ∀ today : String,
       (updateUserStatus db uid u today).checkins = db.checkins) ∧
    (∀ db : DbState, ∀ uid : Nat, ∀ today : String,
       (resetDailyStatus db uid today).checkins = db.checkins ∧
       (getUserStatus db uid today).1.checkins = db.checkins) ∧
    (∀ db : DbState, ∀ cfg : TerminalConfig,
       (saveTerminalConfig db cfg).checkins = db.checkins) ∧
    (∀ db : DbState, ∀ ty : SyncType, ∀ now : Nat,
       (logSyncStart db ty now).checkins = db.checkins) ∧
    (∀ db : DbState, ∀ logId now sent received failed : Nat,
       (logSyncComplete db logId now sent received failed).checkins = db.checkins) ∧
    (∀ db : DbState, ∀ logId now : Nat, ∀ msg : String,
       (logSyncFailed db logId now msg).checkins = db.checkins) ∧
    (∀ db uid uname am hash lid2 now today online q,
       checkIn db uid uname am hash lid2 now today online = .ok q →
       ∃ rec, q.1.checkins = db.checkins ++ [rec]) ∧
    (∀ db uid uname am hash lid2 now today online q,
       checkOut db uid uname am hash lid2 now today online = .ok q →
       ∃ rec, q.1.checkins = db.checkins ++ [rec]) ∧
    (∀ db uid uname am lid2 now today online q,
       startBreak db uid uname am lid2 now today online = .ok q →
       ∃ rec, q.1.checkins = db.checkins ++ [rec]) ∧
    (∀ db uid uname am lid2 now today online q,
       endBreak db uid uname am lid2 now today online = .ok q →
       ∃ rec, q.1.checkins = db.checkins ++ [rec]) ∧
    (∀ store2 : List CheckinRecord, ∀ d now : Nat,
       (∀ c' ∈ (deleteOldSyncedCheckins store2 d now).1, c' ∈ store2) ∧
       (∀ c ∈ store2, c.syncStatus ≠ .synced →
          c ∈ (deleteOldSyncedCheckins store2 d now).1)) := by
  refine ⟨?_, by simp [updateCheckinSyncStatus], ?_,
          fun r hr => by simp [saveCheckin, hr],
          updateUserStatus_checkins,
          fun db uid today => ⟨rfl, getUserStatus_checkins db uid today⟩,
          fun db cfg => rfl,
          fun db ty now => rfl,
          fun db logId now sent received failed => rfl,
          fun db logId now msg => rfl,
          checkIn_checkins,
          checkOut_checkins,
          startBreak_checkins,
          endBreak_checkins,
          fun store2 d now => ⟨deleteOldSyncedCheckins_subset store2 d now,
            fun c hc hs => deleteOldSyncedCheckins_keeps_unsynced store2 d now c hc hs⟩⟩
  · intro h
    apply map_id_of_eq
    intro c hc
    have hpc : ¬ c.localId = lid := by
      intro he
      have hb : (c.localId == lid) = true := by simp [he]
      have h2 : store.any (fun c => c.localId == lid) = true :=
        List.any_eq_true.mpr ⟨c, hc, hb⟩
      rw [h] at h2
      exact Bool.noConfusion h2
    simp [updOne, hpc]
  · intro c' hc'
    obtain ⟨c, hc, rfl⟩ := List.mem_map.mp hc'
    refine ⟨c, hc, ?_⟩
    by_cases hcl : c.localId = lid
    · simp [updOne, hcl]
    · simp [updOne, hcl]

/-- C9 witness: the contract evaluated on the three-event store, for one
absent and one present localId, plus the frame facts at concrete inputs: a
status write leaves the table alone and a concrete check-in only appends. -/
theorem C9_witness :
    updateCheckinSyncStatus s4w.db.checkins "missing" SyncStatus.failed none (some "x")
      = s4w.db.checkins ∧
    (updateCheckinSyncStatus s4w.db.checkins "e1" SyncStatus.synced (some 5) none).length
      = s4w.db.checkins.length ∧
    (updateUserStatus db5x 7 { isCheckedIn := some true } "2026-10-12").checkins
      = db5x.checkins ∧
    (∀ q, checkIn db5x 7 "Alice" AuthMethod.nfc none "c2" 60000 "2026-10-12" true
        = .ok q → ∃ rec, q.1.checkins = db5x.checkins ++ [rec]) := by
  obtain ⟨hA, -, -, -, hE, -, -, -, -, -, hL, -, -, -, -⟩ :=
    C9_update_contract s4w.db.checkins "missing" SyncStatus.failed none (some "x")
  have hB := (C9_update_contract s4w.db.checkins "e1" SyncStatus.synced (some 5)
    none).2.1
  exact ⟨hA (by decide), hB, hE db5x 7 { isCheckedIn := some true } "2026-10-12",
         fun q h => hL db5x 7 "Alice" AuthMethod.nfc none "c2" 60000 "2026-10-12"
           true q h⟩

-- ===========================================================================
-- C10: write-path check-in performs no rollover
-- ===========================================================================

/-- C10: checkIn writes the status row without reading it first, so on a row
whose status date is stale it re-stamps the date to today and sets
isCheckedIn, while totalTodayMinutes keeps the value accumulated on the
previous day — the rollover happens only on the read path. -/
theorem C10_checkin_carries_minutes (db : DbState) (uid : Nat) (uname : String)
    (am : AuthMethod) (hash : Option String) (lid : String) (now : Nat)
    (today : String) (online : Bool) (row : UserStatusRow)
    (hrow : lookupStatus db.userStatus uid = some row)
    (hdate : row.todayDate ≠ today)
    (hfresh : db.checkins.any (fun c => c.localId == lid) = false) :
    ∃ db' rec, checkIn db uid uname am hash lid now today online = .ok (db', rec) ∧
      lookupStatus db'.userStatus uid =
        some { row with
               isCheckedIn := true, lastCheckIn := some now,
               currentSessionStart := jsOrNullNat (some now),
               todayDate := today } ∧
      ({ row with
         isCheckedIn := true, lastCheckIn := some now,
         currentSessionStart := jsOrNullNat (some now),
         todayDate := today } : UserStatusRow).totalTodayMinutes
        = row.totalTodayMinutes := by
  refine ⟨updateUserStatus
      { db with checkins := db.checkins ++ [storedCheckin
          { localId := lid, userId := uid, userName := uname, checkType := .check_in,
            timestamp := now, authMethod := am, nfcCardHash := hash,
            createdOffline := !online, syncStatus := .pending,
            syncedAt := none, syncError := none }] } uid
      { isCheckedIn := some true, lastCheckIn := some now,
        currentSessionStart := some now } today,
    { localId := lid, userId := uid, userName := uname, checkType := .check_in,
      timestamp := now, authMethod := am, nfcCardHash := hash,
      createdOffline := !online, syncStatus := .pending,
      syncedAt := none, syncError := none }, ?_, ?_, rfl⟩
  · simp [checkIn, saveCheckin, hfresh]
  · have hred : lookupStatus
        ({ db with checkins := db.checkins ++ [storedCheckin
            { localId := lid, userId := uid, userName := uname, checkType := .check_in,
              timestamp := now, authMethod := am, nfcCardHash := hash,
              createdOffline := !online, syncStatus := .pending,
              syncedAt := none, syncError := none }] } : DbState).userStatus uid
        = some row := hrow
    simp only [updateUserStatus, hred, Option.isSome_some, if_true]
    show lookupStatus (setStatusRow db.userStatus uid _) uid = _
    rw [lookupStatus_setStatusRow, hrow]
    rfl

/-- C10 witness: check-in on the stale row of user 7 keeps the 120 minutes of
the previous day while stamping the row with the new date. -/
theorem C10_witness :
    (∃ db' rec, checkIn db5x 7 "Alice" AuthMethod.nfc none "c1" 60000 "2026-10-12" true
        = .ok (db', rec) ∧
      lookupStatus db'.userStatus 7 =
        some { rowY with
               isCheckedIn := true, lastCheckIn := some 60000,
               currentSessionStart := jsOrNullNat (some 60000),
               todayDate := "2026-10-12" } ∧
      ({ rowY with
         isCheckedIn := true, lastCheckIn := some 60000,
         currentSessionStart := jsOrNullNat (some 60000),
         todayDate := "2026-10-12" } : UserStatusRow).totalTodayMinutes
        = rowY.totalTodayMinutes) ∧
    (checkIn db5x 7 "Alice" AuthMethod.nfc none "c1" 60000 "2026-10-12" true).map
      (fun q => (lookupStatus q.1.userStatus 7).map
        (fun r => (r.totalTodayMinutes, r.todayDate, r.isCheckedIn)))
      = Except.ok (some ((120 : Int), "2026-10-12", true)) := by
  refine ⟨?_, by decide⟩
  exact C10_checkin_carries_minutes db5x 7 "Alice" AuthMethod.nfc none "c1" 60000
    "2026-10-12" true rowY rfl (by decide) (by decide)
